import Mathlib

/-!
Verification of the tasklist MCP client core: the response interpreter,
the identifier extractors (`src/tasklist_mcp_client/src/utils.rs`) and the
six-step workflow orchestrator (`src/tasklist_mcp_client/src/sample_uml.rs`,
function `sample_uml_diagram`).

JSON values are modelled by the inductive `Json`; serde_json field and index
lookups become `Json.get` and `Json.idx`.  The two Rust regexes
`(?:diagram ID|with ID): ([a-f0-9\-]+)` and `ID: ([a-f0-9\-]+)` are modelled
by an explicit leftmost-first scan (`extractDiagramL`, `extractNodeL`): at each
start position the literal marker is matched and the greedy capture group
becomes `List.takeWhile isTok`, exactly the semantics of the regex crate for
these patterns.  The straight-line Rust function `sample_uml_diagram` is
modelled as a linear state machine (`WState`, `step`, `runAux`): a panic or a
failed `expect` becomes the absorbing state `WState.failed`, a response that
could not be sent or parsed becomes `none`.
-/

/-- JSON values, as in serde_json.  Numbers are rationals (the request ids in
the source include `0.5`). -/
inductive Json where
  | null : Json
  | bool : Bool → Json
  | num : ℚ → Json
  | str : String → Json
  | arr : List Json → Json
  | obj : List (String × Json) → Json

/-- First-match lookup in an association list of object fields. -/
def lookupField : List (String × Json) → String → Option Json
  | [], _ => none
  | (k, v) :: rest, key => if k == key then some v else lookupField rest key

/-- `serde_json::Value::get` with a string key: defined on objects only. -/
def Json.get : Json → String → Option Json
  | .obj fields, key => lookupField fields key
  | _, _ => none

/-- `serde_json::Value::get` with a numeric index: defined on arrays only. -/
def Json.idx : Json → Nat → Option Json
  | .arr xs, n => xs.get? n
  | _, _ => none

/-- `Value::as_str`. -/
def Json.asStr : Json → Option String
  | .str s => some s
  | _ => none

/-- The nested success path `result.content[0].text` read as a string, as in
the chains `result.get("result").and_then(...)` and
`result1["result"]["content"][0]["text"].as_str()` of `sample_uml.rs`. -/
def textOf (j : Json) : Option String :=
  ((((j.get "result").bind (fun r => r.get "content")).bind
    (fun c => c.idx 0)).bind (fun item => item.get "text")).bind Json.asStr

/-- Whether the parsed body contains an `error` field
(`result.get("error").is_some()`). -/
def hasError (j : Json) : Bool :=
  (j.get "error").isSome

/-- Character class `[a-f0-9\-]` of both extraction regexes. -/
def isTok (c : Char) : Bool :=
  (decide ('a' ≤ c) && decide (c ≤ 'f')) ||
  (decide ('0' ≤ c) && decide (c ≤ '9')) || (c == '-')

/-- Match a literal list of characters at the head of the input, returning the
remainder on success. -/
def matchLit : List Char → List Char → Option (List Char)
  | [], rest => some rest
  | _ :: _, [] => none
  | l :: ls, c :: cs => if c == l then matchLit ls cs else none

/-- The literal `"ID: "` of the regex `ID: ([a-f0-9\-]+)`. -/
def nodeMarker : List Char := ['I', 'D', ':', ' ']

/-- The literal `"diagram ID: "` of the first alternation branch of the
diagram regex. -/
def diagMarker : List Char :=
  ['d', 'i', 'a', 'g', 'r', 'a', 'm', ' ', 'I', 'D', ':', ' ']

/-- The literal `"with ID: "` of the second alternation branch. -/
def withMarker : List Char := ['w', 'i', 't', 'h', ' ', 'I', 'D', ':', ' ']

/-- Try the pattern `marker` followed by the greedy nonempty capture
`([a-f0-9\-]+)` at the current position. -/
def tryAt (marker cs : List Char) : Option (List Char) :=
  match matchLit marker cs with
  | some rest =>
      let t := rest.takeWhile isTok
      if t.isEmpty then none else some t
  | none => none

/-- Leftmost-first scan for `ID: ([a-f0-9\-]+)`: the body of
`extract_node_id` in `utils.rs`. -/
def extractNodeL : List Char → Option (List Char)
  | [] => none
  | c :: cs =>
      match tryAt nodeMarker (c :: cs) with
      | some t => some t
      | none => extractNodeL cs

/-- Leftmost-first scan for `(?:diagram ID|with ID): ([a-f0-9\-]+)`: the body
of `extract_diagram_id` in `utils.rs`. -/
def extractDiagramL : List Char → Option (List Char)
  | [] => none
  | c :: cs =>
      match tryAt diagMarker (c :: cs) with
      | some t => some t
      | none =>
          match tryAt withMarker (c :: cs) with
          | some t => some t
          | none => extractDiagramL cs

/-- `pub fn extract_diagram_id(text: &str) -> Option<String>`. -/
def extract_diagram_id (s : String) : Option String :=
  (extractDiagramL s.toList).map fun l => ⟨l⟩

/-- `pub fn extract_node_id(text: &str) -> Option<String>`. -/
def extract_node_id (s : String) : Option String :=
  (extractNodeL s.toList).map fun l => ⟨l⟩

/-! ## The six request envelopes of `sample_uml_diagram` -/

/-- Step 0 request: delete the previous sample diagram (`delete_prev`). -/
def delete_prev : Json :=
  .obj [("jsonrpc", .str "2.0"), ("method", .str "tools/call"),
    ("params", .obj [("name", .str "delete_diagram"),
      ("arguments", .obj
        [("diagramId", .str "9abb0ddb-4026-4a19-926e-0b63b1d395ea")])]),
    ("id", .num 0)]

/-- Second cleanup request: delete the empty sample diagram (`delete_empty`). -/
def delete_empty : Json :=
  .obj [("jsonrpc", .str "2.0"), ("method", .str "tools/call"),
    ("params", .obj [("name", .str "delete_diagram"),
      ("arguments", .obj
        [("diagramId", .str "2b7c78b0-96e5-4ecc-b1da-de9ca391ce17")])]),
    ("id", .num 0.5)]

/-- Step 1 request: create the UML diagram (`create_diagram`). -/
def create_diagram_req : Json :=
  .obj [("jsonrpc", .str "2.0"), ("method", .str "tools/call"),
    ("params", .obj [("name", .str "create_diagram"),
      ("arguments", .obj [("diagramType", .str "uml"),
        ("name", .str "Sample UML Diagram")])]),
    ("id", .num 1)]

/-- Step 2 first request: add the `Person` class (`class1`), parameterised by
the captured diagram id. -/
def class1_req (diagramId : String) : Json :=
  .obj [("jsonrpc", .str "2.0"), ("method", .str "tools/call"),
    ("params", .obj [("name", .str "add_uml_class"),
      ("arguments", .obj [("diagramId", .str diagramId),
        ("name", .str "Person"),
        ("attributes", .arr
          [.obj [("name", .str "id"), ("type", .str "int"),
            ("visibility", .str "private")],
           .obj [("name", .str "name"), ("type", .str "String"),
            ("visibility", .str "private")],
           .obj [("name", .str "age"), ("type", .str "int"),
            ("visibility", .str "private")],
           .obj [("name", .str "email"), ("type", .str "String"),
            ("visibility", .str "private")]]),
        ("methods", .arr
          [.obj [("name", .str "getName"), ("returnType", .str "String"),
            ("visibility", .str "public")],
           .obj [("name", .str "setAge"), ("returnType", .str "void"),
            ("visibility", .str "public"),
            ("parameters", .arr
              [.obj [("name", .str "age"), ("type", .str "int")]])],
           .obj [("name", .str "getEmail"), ("returnType", .str "String"),
            ("visibility", .str "public")]]),
        ("position", .obj [("x", .num 100.0), ("y", .num 100.0)])])]),
    ("id", .num 2)]

/-- Step 2 second request: add the `Car` class (`class2`). -/
def class2_req (diagramId : String) : Json :=
  .obj [("jsonrpc", .str "2.0"), ("method", .str "tools/call"),
    ("params", .obj [("name", .str "add_uml_class"),
      ("arguments", .obj [("diagramId", .str diagramId),
        ("name", .str "Car"),
        ("attributes", .arr
          [.obj [("name", .str "model"), ("type", .str "String"),
            ("visibility", .str "private")],
           .obj [("name", .str "year"), ("type", .str "int"),
            ("visibility", .str "private")],
           .obj [("name", .str "color"), ("type", .str "String"),
            ("visibility", .str "private")]]),
        ("methods", .arr
          [.obj [("name", .str "getModel"), ("returnType", .str "String"),
            ("visibility", .str "public")],
           .obj [("name", .str "setYear"), ("returnType", .str "void"),
            ("visibility", .str "public"),
            ("parameters", .arr
              [.obj [("name", .str "year"), ("type", .str "int")]])]]),
        ("position", .obj [("x", .num 350.0), ("y", .num 100.0)])])]),
    ("id", .num 3)]

/-- Step 3 request: create the association edge (`edge`), parameterised by
the captured diagram and node ids. -/
def edge_req (diagramId sourceId targetId : String) : Json :=
  .obj [("jsonrpc", .str "2.0"), ("method", .str "tools/call"),
    ("params", .obj [("name", .str "create_edge"),
      ("arguments", .obj [("diagramId", .str diagramId),
        ("edgeType", .str "association"),
        ("sourceId", .str sourceId),
        ("targetId", .str targetId),
        ("label", .str "owns")])]),
    ("id", .num 4)]

/-- The tool name of a request: `params.name` as a string. -/
def toolNameOf (req : Json) : Option String :=
  ((req.get "params").bind (fun p => p.get "name")).bind Json.asStr

/-- The arguments of a request: `params.arguments`. -/
def argsOf (req : Json) : Option Json :=
  (req.get "params").bind (fun p => p.get "arguments")

/-! ## The workflow orchestrator -/

/-- Outcome of interpreting a received response body, following §4.2 of the
design: an `error` key wins, otherwise the nested success text is required. -/
inductive Outcome where
  | success : String → Outcome
  | serverError : Json → Outcome
  | malformed : Outcome

/-- The response interpreter: classify a parsed body. -/
def interpret (j : Json) : Outcome :=
  match j.get "error" with
  | some e => .serverError e
  | none =>
      match textOf j with
      | some t => .success t
      | none => .malformed

/-- Discriminator for `Outcome.serverError`. -/
def Outcome.isServerError : Outcome → Bool
  | .serverError _ => true
  | _ => false

/-- Discriminator for `Outcome.malformed`. -/
def Outcome.isMalformed : Outcome → Bool
  | .malformed => true
  | _ => false

/-- The states of the linear workflow of `sample_uml_diagram`: the two cleanup
deletes, the four creation steps, and the two terminal states. `failed`
models a panic (the process aborts). -/
inductive WState where
  | cleanupPrevious | cleanupEmpty | createDiagram
  | createEntityA | createEntityB | createEdge
  | done | failed
deriving DecidableEq, Repr

/-- The workflow context: the identifiers captured so far and threaded into
later requests (`diagram_id`, `class1_id`, `class2_id` in the source). -/
structure Ctx where
  diagramId : Option String
  entityAId : Option String
  entityBId : Option String
deriving DecidableEq, Repr

/-- The empty initial context. -/
def ctx0 : Ctx := ⟨none, none, none⟩

/-- One step of the orchestrator: how `sample_uml_diagram` reacts to the
response of the current state.  `none` models a transport failure (the
request could not be sent, or the body was not parseable JSON): every
`.expect` in the source panics on it.  The two cleanup steps only log the
presence of an `error` field and proceed on any parsed body.  `createDiagram`
reads `result.content[0].text` and extracts the diagram id, panicking when
either is missing — the source performs no `error`-field check there.  The
two `add_uml_class` steps panic on an `error` field, then on a missing text,
then on a failed id extraction.  `create_edge` panics on an `error` field and
otherwise finishes. -/
def step : WState → Ctx → Option Json → WState × Ctx
  | .cleanupPrevious, ctx, none => (.failed, ctx)
  | .cleanupPrevious, ctx, some _ => (.cleanupEmpty, ctx)
  | .cleanupEmpty, ctx, none => (.failed, ctx)
  | .cleanupEmpty, ctx, some _ => (.createDiagram, ctx)
  | .createDiagram, ctx, none => (.failed, ctx)
  | .createDiagram, ctx, some j =>
      match textOf j with
      | none => (.failed, ctx)
      | some text =>
          match extract_diagram_id text with
          | none => (.failed, ctx)
          | some d => (.createEntityA, { ctx with diagramId := some d })
  | .createEntityA, ctx, none => (.failed, ctx)
  | .createEntityA, ctx, some j =>
      if hasError j then (.failed, ctx)
      else
        match textOf j with
        | none => (.failed, ctx)
        | some text =>
            match extract_node_id text with
            | none => (.failed, ctx)
            | some a => (.createEntityB, { ctx with entityAId := some a })
  | .createEntityB, ctx, none => (.failed, ctx)
  | .createEntityB, ctx, some j =>
      if hasError j then (.failed, ctx)
      else
        match textOf j with
        | none => (.failed, ctx)
        | some text =>
            match extract_node_id text with
            | none => (.failed, ctx)
            | some b => (.createEdge, { ctx with entityBId := some b })
  | .createEdge, ctx, none => (.failed, ctx)
  | .createEdge, ctx, some j =>
      if hasError j then (.failed, ctx) else (.done, ctx)
  | .done, ctx, _ => (.done, ctx)
  | .failed, ctx, _ => (.failed, ctx)

/-- The request a state sends, built from the context.  Terminal states send
nothing; a creation state missing a required prior identifier cannot build
its arguments (in the source the identifier is a local variable already in
scope, so this case is unreachable from the initial state). -/
def requestFor : WState → Ctx → Option Json
  | .cleanupPrevious, _ => some delete_prev
  | .cleanupEmpty, _ => some delete_empty
  | .createDiagram, _ => some create_diagram_req
  | .createEntityA, ctx => ctx.diagramId.map class1_req
  | .createEntityB, ctx => ctx.diagramId.map class2_req
  | .createEdge, ctx =>
      match ctx.diagramId, ctx.entityAId, ctx.entityBId with
      | some d, some a, some b => some (edge_req d a b)
      | _, _, _ => none
  | .done, _ => none
  | .failed, _ => none

/-- Run the orchestrator on a script of responses, one per step, recording
every request sent.  The run halts when the state sends no request. -/
def runAux : WState → Ctx → List (Option Json) → List Json →
    WState × Ctx × List Json
  | s, ctx, [], log => (s, ctx, log)
  | s, ctx, r :: rs, log =>
      match requestFor s ctx with
      | none => (s, ctx, log)
      | some req =>
          let p := step s ctx r
          runAux p.1 p.2 rs (log ++ [req])

/-- A full run of `sample_uml_diagram` from the initial state. -/
def run (rs : List (Option Json)) : WState × Ctx × List Json :=
  runAux .cleanupPrevious ctx0 rs []

/-- The number of `create_edge` invocations recorded in a request log. -/
def edgeCount (log : List Json) : Nat :=
  (log.filter (fun req => toolNameOf req == some "create_edge")).length

/-- A successful response carrying the given result text. -/
def mkTextResponse (t : String) : Json :=
  .obj [("result", .obj [("content", .arr [.obj [("text", .str t)]])])]

/-- A response carrying both an `error` field and a well-formed success
payload. -/
def respBoth : Json :=
  .obj [("error", .str "boom"),
    ("result", .obj [("content",
      .arr [.obj [("text", .str "Created diagram with ID: ab")]])])]

/-- A response carrying only an `error` field. -/
def respError : Json := .obj [("error", .str "boom")]

/-- An empty object response: no `error` field and no success shape. -/
def respEmpty : Json := .obj []

/-- A response with a `result` that is not the expected nested shape. -/
def respOk : Json := .obj [("result", .str "ok")]

/-- Whether the entity pattern `ID: ([a-f0-9\-]+)` matches at the current
position. -/
def nodeMatchAt (cs : List Char) : Bool :=
  (tryAt nodeMarker cs).isSome

/-- Whether the diagram pattern `(?:diagram ID|with ID): ([a-f0-9\-]+)`
matches at the current position. -/
def diagMatchAt (cs : List Char) : Bool :=
  (tryAt diagMarker cs).isSome || (tryAt withMarker cs).isSome

/-! ## Helper lemmas about the extractors -/

theorem matchLit_self_append (m rest : List Char) :
    matchLit m (m ++ rest) = some rest := by
  induction m with
  | nil => rfl
  | cons l ls ih => simp [matchLit, ih]

theorem matchLit_drop {m cs rest : List Char}
    (h : matchLit m cs = some rest) : rest = cs.drop m.length := by
  induction m generalizing cs with
  | nil => simpa [matchLit] using h.symm
  | cons l ls ih =>
      cases cs with
      | nil => simp [matchLit] at h
      | cons c cs =>
          by_cases hc : c == l
          · simpa [List.length_cons, List.drop_succ_cons] using
              ih (by simpa [matchLit, hc] using h)
          · simp [matchLit, hc] at h

theorem matchLit_split {m1 m2 cs rest : List Char}
    (h : matchLit (m1 ++ m2) cs = some rest) :
    matchLit m2 (cs.drop m1.length) = some rest := by
  induction m1 generalizing cs with
  | nil => simpa using h
  | cons l ls ih =>
      cases cs with
      | nil => simp [matchLit] at h
      | cons c cs =>
          by_cases hc : c == l
          · simpa [List.length_cons, List.drop_succ_cons] using
              ih (by simpa [matchLit, hc] using h)
          · simp [matchLit, hc] at h

theorem tryAt_some {m cs t : List Char} (h : tryAt m cs = some t) :
    t = (cs.drop m.length).takeWhile isTok ∧ t ≠ [] := by
  unfold tryAt at h
  cases hm : matchLit m cs with
  | none => simp [hm] at h
  | some rest =>
      rw [hm] at h
      simp only at h
      by_cases he : (rest.takeWhile isTok).isEmpty
      · simp [he] at h
      · rw [if_neg he] at h
        obtain rfl := (Option.some.injEq _ _).mp h
        refine ⟨by rw [matchLit_drop hm], ?_⟩
        simpa [List.isEmpty_iff] using he

theorem tryAt_of_matchLit {m cs rest : List Char}
    (h : matchLit m cs = some rest)
    (hne : (rest.takeWhile isTok).isEmpty = false) :
    tryAt m cs = some (rest.takeWhile isTok) := by
  unfold tryAt
  rw [h]
  simp [hne]

theorem extractNodeL_eq_none_iff (cs : List Char) :
    extractNodeL cs = none ↔ ∀ n, nodeMatchAt (cs.drop n) = false := by
  induction cs with
  | nil =>
      simp only [extractNodeL, List.drop_nil, true_iff]
      intro n
      simp [nodeMatchAt, tryAt, nodeMarker, matchLit]
  | cons c cs ih =>
      cases h : tryAt nodeMarker (c :: cs) with
      | some t =>
          constructor
          · intro hx
            simp [extractNodeL, h] at hx
          · intro hall
            have := hall 0
            simp [nodeMatchAt, h] at this
      | none =>
          have hstep : extractNodeL (c :: cs) = extractNodeL cs := by
            simp [extractNodeL, h]
          rw [hstep, ih]
          constructor
          · intro hall n
            cases n with
            | zero => simp [nodeMatchAt, h]
            | succ k => simpa [List.drop_succ_cons] using hall k
          · intro hall n
            simpa [List.drop_succ_cons] using hall (n + 1)

theorem extractNodeL_some_char {cs t : List Char}
    (h : extractNodeL cs = some t) :
    ∃ n, nodeMatchAt (cs.drop n) = true ∧
      (∀ m, m < n → nodeMatchAt (cs.drop m) = false) ∧
      t = ((cs.drop n).drop 4).takeWhile isTok := by
  induction cs with
  | nil => simp [extractNodeL] at h
  | cons c cs ih =>
      cases h0 : tryAt nodeMarker (c :: cs) with
      | some t0 =>
          have ht : t = t0 := by simpa [extractNodeL, h0] using h.symm
          refine ⟨0, by simp [nodeMatchAt, h0], by omega, ?_⟩
          have := (tryAt_some h0).1
          simpa [ht, nodeMarker] using this
      | none =>
          have hstep : extractNodeL (c :: cs) = extractNodeL cs := by
            simp [extractNodeL, h0]
          obtain ⟨n, h1, h2, h3⟩ := ih (hstep ▸ h)
          refine ⟨n + 1, by simpa [List.drop_succ_cons] using h1, ?_, ?_⟩
          · intro m hm
            cases m with
            | zero => simp [nodeMatchAt, h0]
            | succ k =>
                simpa [List.drop_succ_cons] using h2 k (by omega)
          · simpa [List.drop_succ_cons] using h3

theorem extractNodeL_isSome_of_matchAt {cs : List Char} {n : Nat}
    (h : nodeMatchAt (cs.drop n) = true) : (extractNodeL cs).isSome = true := by
  cases he : extractNodeL cs with
  | some t => rfl
  | none =>
      have := (extractNodeL_eq_none_iff cs).mp he n
      rw [this] at h
      exact absurd h (by simp)

theorem extractDiagramL_some_at {cs t : List Char}
    (h : extractDiagramL cs = some t) :
    ∃ n, tryAt diagMarker (cs.drop n) = some t ∨
      tryAt withMarker (cs.drop n) = some t := by
  induction cs with
  | nil => simp [extractDiagramL] at h
  | cons c cs ih =>
      cases h0 : tryAt diagMarker (c :: cs) with
      | some t0 =>
          have ht : t = t0 := by simpa [extractDiagramL, h0] using h.symm
          exact ⟨0, Or.inl (by simp [h0, ht])⟩
      | none =>
          cases h1 : tryAt withMarker (c :: cs) with
          | some t0 =>
              have ht : t = t0 := by
                simpa [extractDiagramL, h0, h1] using h.symm
              exact ⟨0, Or.inr (by simp [h1, ht])⟩
          | none =>
              have hstep : extractDiagramL (c :: cs) = extractDiagramL cs := by
                simp [extractDiagramL, h0, h1]
              obtain ⟨n, hn⟩ := ih (hstep ▸ h)
              exact ⟨n + 1, by simpa [List.drop_succ_cons] using hn⟩

theorem tryAt_diag_node {l t : List Char} (h : tryAt diagMarker l = some t) :
    tryAt nodeMarker (l.drop 8) = some t := by
  unfold tryAt at h ⊢
  cases hm : matchLit diagMarker l with
  | none => rw [hm] at h; exact absurd h (by simp)
  | some rest =>
      rw [hm] at h
      have hsplit : matchLit nodeMarker (l.drop 8) = some rest := by
        have : matchLit (['d', 'i', 'a', 'g', 'r', 'a', 'm', ' '] ++
            nodeMarker) l = some rest := by
          simpa [diagMarker, nodeMarker] using hm
        simpa using matchLit_split this
      rw [hsplit]
      exact h

theorem tryAt_with_node {l t : List Char} (h : tryAt withMarker l = some t) :
    tryAt nodeMarker (l.drop 5) = some t := by
  unfold tryAt at h ⊢
  cases hm : matchLit withMarker l with
  | none => rw [hm] at h; exact absurd h (by simp)
  | some rest =>
      rw [hm] at h
      have hsplit : matchLit nodeMarker (l.drop 5) = some rest := by
        have : matchLit (['w', 'i', 't', 'h', ' '] ++ nodeMarker) l
            = some rest := by
          simpa [withMarker, nodeMarker] using hm
        simpa using matchLit_split this
      rw [hsplit]
      exact h

theorem extractNodeL_some_tok {cs t : List Char}
    (h : extractNodeL cs = some t) : ∀ c ∈ t, isTok c = true := by
  obtain ⟨n, _, _, ht⟩ := extractNodeL_some_char h
  intro c hc
  exact List.mem_takeWhile_imp (ht ▸ hc)

theorem extractDiagramL_some_tok {cs t : List Char}
    (h : extractDiagramL cs = some t) : ∀ c ∈ t, isTok c = true := by
  obtain ⟨n, hn | hn⟩ := extractDiagramL_some_at h
  all_goals
    obtain ⟨ht, -⟩ := tryAt_some hn
    intro c hc
    exact List.mem_takeWhile_imp (ht ▸ hc)

theorem extractDiagram_created (X : List Char) (hne : X.isEmpty = false)
    (hall : ∀ c ∈ X, isTok c = true) :
    extractDiagramL ("Created diagram with ID: ".toList ++ X) = some X := by
  have hX : X.takeWhile isTok = X := List.takeWhile_eq_self_iff.mpr hall
  simp only [show "Created diagram with ID: ".toList =
    ['C', 'r', 'e', 'a', 't', 'e', 'd', ' ', 'd', 'i', 'a', 'g', 'r', 'a',
     'm', ' ', 'w', 'i', 't', 'h', ' ', 'I', 'D', ':', ' '] from rfl]
  simp [extractDiagramL, tryAt, matchLit, diagMarker, withMarker, hX, hne]

/-! ## Helper lemmas about the orchestrator -/

theorem runAux_failed (ctx : Ctx) (rs : List (Option Json)) (log : List Json) :
    runAux .failed ctx rs log = (.failed, ctx, log) := by
  cases rs <;> rfl

theorem runAux_cons {s : WState} {ctx : Ctx} {req : Json}
    {s2 : WState} {ctx2 : Ctx} (r : Option Json) (rs : List (Option Json))
    (log : List Json) (h1 : requestFor s ctx = some req)
    (h2 : step s ctx r = (s2, ctx2)) :
    runAux s ctx (r :: rs) log = runAux s2 ctx2 rs (log ++ [req]) := by
  simp [runAux, h1, h2]

theorem runAux_append (s : WState) (ctx : Ctx) (xs ys : List (Option Json))
    (log : List Json) :
    runAux s ctx (xs ++ ys) log =
      runAux (runAux s ctx xs log).1 (runAux s ctx xs log).2.1 ys
        (runAux s ctx xs log).2.2 := by
  induction xs generalizing s ctx log with
  | nil => simp [runAux]
  | cons x xs ih =>
      cases hreq : requestFor s ctx with
      | none =>
          cases ys with
          | nil => simp [runAux, hreq]
          | cons y ys => simp [runAux, hreq]
      | some req =>
          simp only [List.cons_append, runAux, hreq]
          exact ih _ _ _

theorem runAux_mem_log {s : WState} {ctx : Ctx} {rs : List (Option Json)}
    {log : List Json} {req : Json} (h : req ∈ (runAux s ctx rs log).2.2) :
    req ∈ log ∨ ∃ s2 ctx2, requestFor s2 ctx2 = some req := by
  induction rs generalizing s ctx log with
  | nil => exact Or.inl (by simpa [runAux] using h)
  | cons r rs ih =>
      cases hreq : requestFor s ctx with
      | none => exact Or.inl (by simpa [runAux, hreq] using h)
      | some req0 =>
          rw [runAux, hreq] at h
          rcases ih h with hmem | hex
          · rcases List.mem_append.mp hmem with hl | hr
            · exact Or.inl hl
            · have : req = req0 := List.mem_singleton.mp hr
              exact Or.inr ⟨s, ctx, this ▸ hreq⟩
          · exact Or.inr hex

theorem step_cleanupPrevious_some (ctx : Ctx) (j : Json) :
    step .cleanupPrevious ctx (some j) = (.cleanupEmpty, ctx) := rfl

theorem step_cleanupEmpty_some (ctx : Ctx) (j : Json) :
    step .cleanupEmpty ctx (some j) = (.createDiagram, ctx) := rfl

theorem step_cleanupPrevious_cases (ctx : Ctx) (r : Option Json) :
    step .cleanupPrevious ctx r = (.failed, ctx) ∨
      step .cleanupPrevious ctx r = (.cleanupEmpty, ctx) := by
  cases r <;> simp [step]

theorem step_cleanupEmpty_cases (ctx : Ctx) (r : Option Json) :
    step .cleanupEmpty ctx r = (.failed, ctx) ∨
      step .cleanupEmpty ctx r = (.createDiagram, ctx) := by
  cases r <;> simp [step]

theorem step_createDiagram_cases (ctx : Ctx) (r : Option Json) :
    step .createDiagram ctx r = (.failed, ctx) ∨
      ∃ d, step .createDiagram ctx r =
        (.createEntityA, { ctx with diagramId := some d }) := by
  cases r with
  | none => exact Or.inl rfl
  | some j =>
      cases ht : textOf j with
      | none => exact Or.inl (by simp [step, ht])
      | some text =>
          cases he : extract_diagram_id text with
          | none => exact Or.inl (by simp [step, ht, he])
          | some d => exact Or.inr ⟨d, by simp [step, ht, he]⟩

theorem step_createDiagram_success {j : Json} {text : String} {d : String}
    (ctx : Ctx) (ht : textOf j = some text)
    (he : extract_diagram_id text = some d) :
    step .createDiagram ctx (some j) =
      (.createEntityA, { ctx with diagramId := some d }) := by
  simp [step, ht, he]

theorem step_createEntityA_success {j : Json} {text : String} {a : String}
    (ctx : Ctx) (herr : hasError j = false) (ht : textOf j = some text)
    (he : extract_node_id text = some a) :
    step .createEntityA ctx (some j) =
      (.createEntityB, { ctx with entityAId := some a }) := by
  simp [step, herr, ht, he]

theorem step_createEntityB_success {j : Json} {text : String} {b : String}
    (ctx : Ctx) (herr : hasError j = false) (ht : textOf j = some text)
    (he : extract_node_id text = some b) :
    step .createEntityB ctx (some j) =
      (.createEdge, { ctx with entityBId := some b }) := by
  simp [step, herr, ht, he]

theorem step_createEdge_success {j : Json} (ctx : Ctx)
    (herr : hasError j = false) :
    step .createEdge ctx (some j) = (.done, ctx) := by
  simp [step, herr]

theorem step_error_createEntityA (ctx : Ctx) {j : Json}
    (herr : hasError j = true) :
    step .createEntityA ctx (some j) = (.failed, ctx) := by
  simp [step, herr]

theorem step_error_createEntityB (ctx : Ctx) {j : Json}
    (herr : hasError j = true) :
    step .createEntityB ctx (some j) = (.failed, ctx) := by
  simp [step, herr]

theorem step_error_createEdge (ctx : Ctx) {j : Json}
    (herr : hasError j = true) :
    step .createEdge ctx (some j) = (.failed, ctx) := by
  simp [step, herr]

/-! ## Claims about the identifier extractors -/

/-- C6: for every input text, `extract_node_id` returns the hexadecimal-and-
hyphen token following the first occurrence of the entity marker `ID: ` that
is followed by such a token (only the first matching token, regardless of
surrounding prose, as on the example string), and returns `none` — absence,
not an error — exactly when no position of the text matches the pattern. -/
theorem c6_entity_extraction_first_occurrence :
    (∀ s : String, extract_node_id s = none ↔
      ∀ n, nodeMatchAt (s.toList.drop n) = false) ∧
    (∀ s t : String, extract_node_id s = some t →
      ∃ n, nodeMatchAt (s.toList.drop n) = true ∧
        (∀ m, m < n → nodeMatchAt (s.toList.drop m) = false) ∧
        t.toList = ((s.toList.drop n).drop 4).takeWhile isTok) ∧
    extract_node_id "Node created. ID: 1234abcd-0000-0000-0000-000000000000" =
      some "1234abcd-0000-0000-0000-000000000000" ∧
    extract_node_id "no identifier here" = none ∧
    extract_diagram_id "no identifier here" = none := by
  refine ⟨?_, ?_, by decide, by decide, by decide⟩
  · intro s
    rw [extract_node_id, Option.map_eq_none']
    exact extractNodeL_eq_none_iff s.toList
  · intro s t h
    rw [extract_node_id, Option.map_eq_some'] at h
    obtain ⟨l, hl, rfl⟩ := h
    obtain ⟨n, h1, h2, h3⟩ := extractNodeL_some_char hl
    exact ⟨n, h1, h2, h3⟩

/-- Witness for C6: the characterization applied to the example string of the
specification. -/
theorem c6_witness :
    ∃ n, nodeMatchAt
        (("Node created. ID: 1234abcd-0000-0000-0000-000000000000").toList.drop
          n) = true ∧
      (∀ m, m < n → nodeMatchAt
        (("Node created. ID: 1234abcd-0000-0000-0000-000000000000").toList.drop
          m) = false) ∧
      ("1234abcd-0000-0000-0000-000000000000").toList =
        ((("Node created. ID: 1234abcd-0000-0000-0000-000000000000").toList.drop
          n).drop 4).takeWhile isTok :=
  c6_entity_extraction_first_occurrence.2.1
    "Node created. ID: 1234abcd-0000-0000-0000-000000000000"
    "1234abcd-0000-0000-0000-000000000000" (by decide)

/-- C9: whenever the diagram pattern extracts an identifier from a text, the
entity pattern also extracts one from the same text: both branches of the
diagram marker end in the entity marker `ID: `. -/
theorem c9_diagram_match_implies_entity_match (s t : String)
    (h : extract_diagram_id s = some t) :
    (extract_node_id s).isSome = true := by
  rw [extract_diagram_id, Option.map_eq_some'] at h
  obtain ⟨l, hl, -⟩ := h
  obtain ⟨n, hn | hn⟩ := extractDiagramL_some_at hl
  · have h8 := tryAt_diag_node hn
    rw [List.drop_drop] at h8
    have : nodeMatchAt (s.toList.drop (n + 8)) = true := by
      rw [nodeMatchAt, h8]; rfl
    rw [extract_node_id, Option.isSome_map']
    exact extractNodeL_isSome_of_matchAt this
  · have h5 := tryAt_with_node hn
    rw [List.drop_drop] at h5
    have : nodeMatchAt (s.toList.drop (n + 5)) = true := by
      rw [nodeMatchAt, h5]; rfl
    rw [extract_node_id, Option.isSome_map']
    exact extractNodeL_isSome_of_matchAt this

/-- Witness for C9: a concrete text where the diagram pattern matches. -/
theorem c9_witness : (extract_node_id "Created diagram with ID: 12ab").isSome
    = true :=
  c9_diagram_match_implies_entity_match "Created diagram with ID: 12ab" "12ab"
    (by decide)

/-- C10: every identifier returned by either extractor consists only of
characters of the class `[a-f0-9\-]` — lowercase hexadecimal digits and
hyphens; no uppercase letter is in that class, and a marker followed by an
uppercase token is not matched, as on `"ID: ABCDEF"`. -/
theorem c10_identifiers_lowercase_hex :
    (∀ s t : String, extract_node_id s = some t →
      ∀ c ∈ t.toList, isTok c = true) ∧
    (∀ s t : String, extract_diagram_id s = some t →
      ∀ c ∈ t.toList, isTok c = true) ∧
    (∀ c : Char, isTok c = true →
      c = '-' ∨ ('a' ≤ c ∧ c ≤ 'f') ∨ ('0' ≤ c ∧ c ≤ '9')) ∧
    (∀ c : Char, 'A' ≤ c → c ≤ 'Z' → isTok c = false) ∧
    extract_node_id "ID: ABCDEF" = none := by
  refine ⟨?_, ?_, ?_, ?_, by decide⟩
  · intro s t h
    rw [extract_node_id, Option.map_eq_some'] at h
    obtain ⟨l, hl, rfl⟩ := h
    exact extractNodeL_some_tok hl
  · intro s t h
    rw [extract_diagram_id, Option.map_eq_some'] at h
    obtain ⟨l, hl, rfl⟩ := h
    exact extractDiagramL_some_tok hl
  · intro c h
    rw [isTok] at h
    rcases Bool.or_eq_true_iff.mp h with h1 | h2
    · rcases Bool.or_eq_true_iff.mp h1 with ha | hd
      · obtain ⟨hl, hr⟩ := Bool.and_eq_true_iff.mp ha
        exact Or.inr (Or.inl ⟨of_decide_eq_true hl, of_decide_eq_true hr⟩)
      · obtain ⟨hl, hr⟩ := Bool.and_eq_true_iff.mp hd
        exact Or.inr (Or.inr ⟨of_decide_eq_true hl, of_decide_eq_true hr⟩)
    · exact Or.inl (by simpa using h2)
  · intro c h1 h2
    rw [isTok]
    have hna : ¬ ('a' ≤ c) := fun ha =>
      absurd (le_trans ha h2) (by decide)
    have hn9 : ¬ (c ≤ '9') := fun h9 =>
      absurd (le_trans h1 h9) (by decide)
    have hnd : ¬ (c = '-') := fun hd => absurd (hd ▸ h1) (by decide)
    simp [hna, hn9, hnd]

/-- Witness for C10: the token conjunct applied at a concrete extraction. -/
theorem c10_witness :
    ∀ c ∈ ("12ab-0f").toList, isTok c = true :=
  c10_identifiers_lowercase_hex.1 "Node created. ID: 12ab-0f" "12ab-0f"
    (by decide)

/-- C5 counterexample: for X = `"Z"` (not a lowercase-hexadecimal token) the
interpreter still yields `Success`, but the diagram extractor returns `none`
rather than `some "Z"`, so the claim fails quantified over every string X. -/
theorem c5_counterexample :
    interpret (mkTextResponse "Created diagram with ID: Z") =
      .success "Created diagram with ID: Z" ∧
    extract_diagram_id "Created diagram with ID: Z" = none ∧
    extract_diagram_id "Created diagram with ID: Z" ≠ some "Z" :=
  ⟨rfl, by decide, by decide⟩

/-- C5 (amended): for every nonempty string X consisting only of characters
of the class `[a-f0-9\-]`, a response of shape
`result.content[0].text = "Created diagram with ID: X"` interprets to
`Success` with that text, and the diagram extractor on that text returns
exactly X. -/
theorem c5_interpret_and_extract (X : String)
    (hne : X.toList.isEmpty = false)
    (hall : ∀ c ∈ X.toList, isTok c = true) :
    interpret (mkTextResponse ("Created diagram with ID: " ++ X)) =
      .success ("Created diagram with ID: " ++ X) ∧
    extract_diagram_id ("Created diagram with ID: " ++ X) = some X := by
  refine ⟨rfl, ?_⟩
  rw [extract_diagram_id]
  have happ : ("Created diagram with ID: " ++ X).toList =
      "Created diagram with ID: ".toList ++ X.toList := by
    simp [String.toList]
  rw [happ, extractDiagram_created X.toList hne hall]
  rfl

/-- Witness for C5: the amended claim at X = `"ab"`. -/
theorem c5_witness :
    interpret (mkTextResponse ("Created diagram with ID: " ++ "ab")) =
      .success ("Created diagram with ID: " ++ "ab") ∧
    extract_diagram_id ("Created diagram with ID: " ++ "ab") = some "ab" :=
  c5_interpret_and_extract "ab" (by decide) (by decide)

/-! ## Claims about the orchestrator's failure policy -/

/-- C1 counterexample: a response carrying both an `error` field and a
well-formed `result.content[0].text` is classified `ServerError`, yet the
`createDiagram` step — whose source performs no `error`-field check —
extracts the id from the text and advances to `createEntityA`. -/
theorem c1_counterexample :
    hasError respBoth = true ∧
    Outcome.isServerError (interpret respBoth) = true ∧
    step .createDiagram ctx0 (some respBoth) =
      (.createEntityA, { ctx0 with diagramId := some "ab" }) :=
  ⟨rfl, rfl, by decide⟩

/-- C1 (amended): a response with an `error` field is classified
`ServerError`; the steps `createEntityA`, `createEntityB` and `createEdge`
never advance past such a response, and `createDiagram` does not advance
unless the response also carries the nested success text (its source code
omits the `error`-field check). -/
theorem c1_server_error_blocks (j : Json) (ctx : Ctx)
    (h : hasError j = true) :
    Outcome.isServerError (interpret j) = true ∧
    step .createEntityA ctx (some j) = (.failed, ctx) ∧
    step .createEntityB ctx (some j) = (.failed, ctx) ∧
    step .createEdge ctx (some j) = (.failed, ctx) ∧
    (textOf j = none → step .createDiagram ctx (some j) = (.failed, ctx)) := by
  refine ⟨?_, step_error_createEntityA ctx h, step_error_createEntityB ctx h,
    step_error_createEdge ctx h, ?_⟩
  · rw [interpret]
    cases hge : Json.get j "error" with
    | none => rw [hasError, hge] at h; exact absurd h (by simp)
    | some e => rfl
  · intro ht
    simp [step, ht]

/-- Witness for C1: the amended claim at a concrete error response. -/
theorem c1_witness :
    Outcome.isServerError (interpret respError) = true ∧
    step .createEntityA ctx0 (some respError) = (.failed, ctx0) ∧
    step .createDiagram ctx0 (some respError) = (.failed, ctx0) :=
  ⟨(c1_server_error_blocks respError ctx0 rfl).1,
   (c1_server_error_blocks respError ctx0 rfl).2.1,
   (c1_server_error_blocks respError ctx0 rfl).2.2.2.2 rfl⟩

/-- C4 counterexample: the empty object is `Malformed` (no `error`, no nested
success shape), yet the first cleanup step advances past it, and the
`createEdge` step even finishes the run on it: a malformed response is not
fatal at those steps. -/
theorem c4_counterexample :
    Outcome.isMalformed (interpret respEmpty) = true ∧
    step .cleanupPrevious ctx0 (some respEmpty) = (.cleanupEmpty, ctx0) ∧
    step .createEdge ⟨some "d1", some "a1", some "b1"⟩ (some respEmpty) =
      (.done, ⟨some "d1", some "a1", some "b1"⟩) :=
  ⟨rfl, by decide, by decide⟩

/-- C4 (amended): a `Malformed` response is fatal exactly at the three steps
that read the nested text — `createDiagram`, `createEntityA`,
`createEntityB` — and the resulting `failed` state is absorbing, so no
further step executes; the cleanup steps and `createEdge` never inspect the
result shape. -/
theorem c4_malformed_fatal_at_text_steps (j : Json) (ctx : Ctx)
    (h : Outcome.isMalformed (interpret j) = true) :
    step .createDiagram ctx (some j) = (.failed, ctx) ∧
    step .createEntityA ctx (some j) = (.failed, ctx) ∧
    step .createEntityB ctx (some j) = (.failed, ctx) ∧
    (∀ ctx2 r, step .failed ctx2 r = (.failed, ctx2)) ∧
    (∀ ctx2 rs log, runAux .failed ctx2 rs log = (.failed, ctx2, log)) := by
  have hge : Json.get j "error" = none := by
    rw [interpret] at h
    cases hg : Json.get j "error" with
    | none => rfl
    | some e => rw [hg] at h; exact absurd h (by simp [Outcome.isMalformed])
  have ht : textOf j = none := by
    rw [interpret, hge] at h
    cases hx : textOf j with
    | none => rfl
    | some t => rw [hx] at h; exact absurd h (by simp [Outcome.isMalformed])
  have herr : hasError j = false := by rw [hasError, hge]; rfl
  refine ⟨by simp [step, ht], by simp [step, herr, ht],
    by simp [step, herr, ht], fun ctx2 r => by cases r <;> rfl,
    fun ctx2 rs log => runAux_failed ctx2 rs log⟩

/-- Witness for C4: the amended claim at the empty-object response. -/
theorem c4_witness :
    step .createDiagram ctx0 (some respEmpty) = (.failed, ctx0) ∧
    step .createEntityA ctx0 (some respEmpty) = (.failed, ctx0) :=
  ⟨(c4_malformed_fatal_at_text_steps respEmpty ctx0 rfl).1,
   (c4_malformed_fatal_at_text_steps respEmpty ctx0 rfl).2.1⟩

/-- C7: a `ServerError` response never blocks a cleanup step: both cleanup
states advance on it, and a run fed two such responses reaches
`createDiagram`. -/
theorem c7_cleanup_error_proceeds (j1 j2 : Json) (ctx : Ctx)
    (h1 : hasError j1 = true) (h2 : hasError j2 = true) :
    step .cleanupPrevious ctx (some j1) = (.cleanupEmpty, ctx) ∧
    step .cleanupEmpty ctx (some j2) = (.createDiagram, ctx) ∧
    (runAux .cleanupPrevious ctx [some j1, some j2] []).1 = .createDiagram := by
  refine ⟨rfl, rfl, ?_⟩
  simp [runAux, requestFor, step]

/-- Witness for C7: two concrete error responses. -/
theorem c7_witness :
    step .cleanupPrevious ctx0 (some respError) = (.cleanupEmpty, ctx0) ∧
    step .cleanupEmpty ctx0 (some respError) = (.createDiagram, ctx0) ∧
    (runAux .cleanupPrevious ctx0 [some respError, some respError] []).1 =
      .createDiagram :=
  c7_cleanup_error_proceeds respError respError ctx0 rfl rfl

/-- C8: a transport failure — the request could not be sent, or no parseable
JSON body was received, modelled by a `none` response — is fatal at every
step of the workflow, the cleanup steps included, and the resulting `failed`
state is absorbing: no further step executes. -/
theorem c8_transport_failure_fatal (s : WState) (ctx : Ctx)
    (h1 : s ≠ .done) (h2 : s ≠ .failed) :
    step s ctx none = (.failed, ctx) ∧
    (∀ ctx2 rs log, runAux .failed ctx2 rs log = (.failed, ctx2, log)) := by
  refine ⟨?_, fun ctx2 rs log => runAux_failed ctx2 rs log⟩
  cases s
  all_goals first
    | rfl
    | exact absurd rfl h1
    | exact absurd rfl h2

/-- Witness for C8: the first cleanup step on a transport failure. -/
theorem c8_witness :
    step .cleanupPrevious ctx0 none = (.failed, ctx0) ∧
    (∀ ctx2 rs log, runAux .failed ctx2 rs log = (.failed, ctx2, log)) :=
  c8_transport_failure_fatal .cleanupPrevious ctx0 (by decide) (by decide)

/-! ## Claims about identifier threading -/

/-- C2: in a run where both cleanup steps receive parsed responses and the
four creation steps succeed with texts yielding the identifiers D1 (diagram),
A1 (entity A) and B1 (entity B), the run finishes, the context holds exactly
those identifiers, and the final edge-creation request's arguments carry
`sourceId = A1`, `targetId = B1` and the `diagramId = D1` captured at the
`createDiagram` step, unchanged by the intervening steps. -/
theorem c2_end_to_end (r1 r2 j3 j4 j5 j6 : Json) (t3 t4 t5 D1 A1 B1 : String)
    (h3t : textOf j3 = some t3) (h3e : extract_diagram_id t3 = some D1)
    (h4err : hasError j4 = false) (h4t : textOf j4 = some t4)
    (h4e : extract_node_id t4 = some A1)
    (h5err : hasError j5 = false) (h5t : textOf j5 = some t5)
    (h5e : extract_node_id t5 = some B1)
    (h6err : hasError j6 = false) :
    run [some r1, some r2, some j3, some j4, some j5, some j6] =
      (.done, ⟨some D1, some A1, some B1⟩,
        [delete_prev, delete_empty, create_diagram_req,
         class1_req D1, class2_req D1, edge_req D1 A1 B1]) ∧
    (argsOf (edge_req D1 A1 B1)).bind (fun a => a.get "sourceId") =
      some (.str A1) ∧
    (argsOf (edge_req D1 A1 B1)).bind (fun a => a.get "targetId") =
      some (.str B1) ∧
    (argsOf (edge_req D1 A1 B1)).bind (fun a => a.get "diagramId") =
      some (.str D1) := by
  refine ⟨?_, rfl, rfl, rfl⟩
  have q1 : requestFor .cleanupPrevious ctx0 = some delete_prev := rfl
  have q2 : requestFor .cleanupEmpty ctx0 = some delete_empty := rfl
  have q3 : requestFor .createDiagram ctx0 = some create_diagram_req := rfl
  have q4 : requestFor .createEntityA ⟨some D1, none, none⟩ =
      some (class1_req D1) := rfl
  have q5 : requestFor .createEntityB ⟨some D1, some A1, none⟩ =
      some (class2_req D1) := rfl
  have q6 : requestFor .createEdge ⟨some D1, some A1, some B1⟩ =
      some (edge_req D1 A1 B1) := rfl
  have s3 : step .createDiagram ctx0 (some j3) =
      (.createEntityA, ⟨some D1, none, none⟩) :=
    step_createDiagram_success ctx0 h3t h3e
  have s4 : step .createEntityA ⟨some D1, none, none⟩ (some j4) =
      (.createEntityB, ⟨some D1, some A1, none⟩) :=
    step_createEntityA_success _ h4err h4t h4e
  have s5 : step .createEntityB ⟨some D1, some A1, none⟩ (some j5) =
      (.createEdge, ⟨some D1, some A1, some B1⟩) :=
    step_createEntityB_success _ h5err h5t h5e
  have s6 : step .createEdge ⟨some D1, some A1, some B1⟩ (some j6) =
      (.done, ⟨some D1, some A1, some B1⟩) :=
    step_createEdge_success _ h6err
  rw [run,
    runAux_cons (some r1) _ _ q1 (step_cleanupPrevious_some ctx0 r1),
    runAux_cons (some r2) _ _ q2 (step_cleanupEmpty_some ctx0 r2),
    runAux_cons (some j3) _ _ q3 s3,
    runAux_cons (some j4) _ _ q4 s4,
    runAux_cons (some j5) _ _ q5 s5,
    runAux_cons (some j6) _ _ q6 s6]
  rfl

/-- Witness for C2: a fully scripted successful run with identifiers
`d1`, `a1`, `b1`. -/
theorem c2_witness :
    run [some respEmpty, some respEmpty,
        some (mkTextResponse "Created diagram with ID: d1"),
        some (mkTextResponse "Created class. ID: a1"),
        some (mkTextResponse "Created class. ID: b1"),
        some respOk] =
      (.done, ⟨some "d1", some "a1", some "b1"⟩,
        [delete_prev, delete_empty, create_diagram_req,
         class1_req "d1", class2_req "d1", edge_req "d1" "a1" "b1"]) ∧
    (argsOf (edge_req "d1" "a1" "b1")).bind (fun a => a.get "sourceId") =
      some (.str "a1") ∧
    (argsOf (edge_req "d1" "a1" "b1")).bind (fun a => a.get "targetId") =
      some (.str "b1") ∧
    (argsOf (edge_req "d1" "a1" "b1")).bind (fun a => a.get "diagramId") =
      some (.str "d1") :=
  c2_end_to_end respEmpty respEmpty
    (mkTextResponse "Created diagram with ID: d1")
    (mkTextResponse "Created class. ID: a1")
    (mkTextResponse "Created class. ID: b1") respOk
    "Created diagram with ID: d1" "Created class. ID: a1"
    "Created class. ID: b1" "d1" "a1" "b1"
    (by decide) (by decide) (by decide) (by decide) (by decide)
    (by decide) (by decide) (by decide) (by decide)

/-- C3: the edge-creation step executes only with both endpoint identifiers
captured — every `create_edge` request in any run's log is `edge_req d a b`
for concrete identifiers — and if `createEntityA` receives a response with an
`error` field, the run enters `failed` and the `create_edge` tool is never
invoked: its call count in the log is zero. -/
theorem c3_edge_needs_captured_ids :
    (∀ (r1 r2 r3 : Option Json) (j : Json) (rest : List (Option Json)),
      hasError j = true →
      (runAux .cleanupPrevious ctx0 [r1, r2, r3] []).1 = .createEntityA →
      (run ([r1, r2, r3, some j] ++ rest)).1 = .failed ∧
        edgeCount (run ([r1, r2, r3, some j] ++ rest)).2.2 = 0) ∧
    (∀ (rs : List (Option Json)) (req : Json), req ∈ (run rs).2.2 →
      toolNameOf req = some "create_edge" →
      ∃ d a b, req = edge_req d a b) := by
  constructor
  · intro r1 r2 r3 j rest hj hreach
    have q1 : requestFor .cleanupPrevious ctx0 = some delete_prev := rfl
    have q2 : requestFor .cleanupEmpty ctx0 = some delete_empty := rfl
    have q3 : requestFor .createDiagram ctx0 = some create_diagram_req := rfl
    rcases step_cleanupPrevious_cases ctx0 r1 with h1 | h1
    · rw [runAux_cons r1 _ _ q1 h1, runAux_failed] at hreach
      exact absurd hreach (by decide)
    rcases step_cleanupEmpty_cases ctx0 r2 with h2 | h2
    · rw [runAux_cons r1 _ _ q1 h1, runAux_cons r2 _ _ q2 h2,
        runAux_failed] at hreach
      exact absurd hreach (by decide)
    rcases step_createDiagram_cases ctx0 r3 with h3 | ⟨d, h3⟩
    · rw [runAux_cons r1 _ _ q1 h1, runAux_cons r2 _ _ q2 h2,
        runAux_cons r3 _ _ q3 h3, runAux_failed] at hreach
      exact absurd hreach (by decide)
    have h3x : step .createDiagram ctx0 r3 =
        (.createEntityA, ⟨some d, none, none⟩) := h3
    have q4 : requestFor .createEntityA ⟨some d, none, none⟩ =
        some (class1_req d) := rfl
    have s4 : step .createEntityA ⟨some d, none, none⟩ (some j) =
        (.failed, ⟨some d, none, none⟩) :=
      step_error_createEntityA _ hj
    have hlist : ([r1, r2, r3, some j] ++ rest) =
        r1 :: r2 :: r3 :: some j :: rest := rfl
    rw [run, hlist,
      runAux_cons r1 _ _ q1 h1, runAux_cons r2 _ _ q2 h2,
      runAux_cons r3 _ _ q3 h3x,
      runAux_cons (some j) _ _ q4 s4,
      runAux_failed]
    exact ⟨rfl, rfl⟩
  · intro rs req hmem htn
    rcases runAux_mem_log hmem with hfalse | ⟨s2, ctx2, hreq⟩
    · exact absurd hfalse (List.not_mem_nil req)
    cases s2 with
    | cleanupPrevious =>
        obtain rfl : req = delete_prev := by
          simpa [requestFor] using hreq.symm
        exact absurd htn (by decide)
    | cleanupEmpty =>
        obtain rfl : req = delete_empty := by
          simpa [requestFor] using hreq.symm
        exact absurd htn (by decide)
    | createDiagram =>
        obtain rfl : req = create_diagram_req := by
          simpa [requestFor] using hreq.symm
        exact absurd htn (by decide)
    | createEntityA =>
        cases hd : ctx2.diagramId with
        | none => rw [requestFor, hd] at hreq; exact absurd hreq (by simp)
        | some d =>
            obtain rfl : req = class1_req d := by
              rw [requestFor, hd] at hreq
              simpa using hreq.symm
            have : toolNameOf (class1_req d) = some "add_uml_class" := rfl
            rw [this] at htn
            exact absurd htn (by decide)
    | createEntityB =>
        cases hd : ctx2.diagramId with
        | none => rw [requestFor, hd] at hreq; exact absurd hreq (by simp)
        | some d =>
            obtain rfl : req = class2_req d := by
              rw [requestFor, hd] at hreq
              simpa using hreq.symm
            have : toolNameOf (class2_req d) = some "add_uml_class" := rfl
            rw [this] at htn
            exact absurd htn (by decide)
    | createEdge =>
        cases hd : ctx2.diagramId with
        | none => rw [requestFor, hd] at hreq; exact absurd hreq (by simp)
        | some d =>
            cases ha : ctx2.entityAId with
            | none =>
                rw [requestFor, hd, ha] at hreq; exact absurd hreq (by simp)
            | some a =>
                cases hb : ctx2.entityBId with
                | none =>
                    rw [requestFor, hd, ha, hb] at hreq
                    exact absurd hreq (by simp)
                | some b =>
                    refine ⟨d, a, b, ?_⟩
                    rw [requestFor, hd, ha, hb] at hreq
                    exact (Option.some.injEq _ _).mp hreq.symm
    | done => rw [requestFor] at hreq; exact absurd hreq (by simp)
    | failed => rw [requestFor] at hreq; exact absurd hreq (by simp)

/-- Witness for C3: a concrete run where `createEntityA` receives an error
response, together with a concrete edge request from a successful run. -/
theorem c3_witness :
    ((run [some respEmpty, some respEmpty,
        some (mkTextResponse "Created diagram with ID: d1"),
        some respError]).1 = .failed ∧
      edgeCount (run [some respEmpty, some respEmpty,
        some (mkTextResponse "Created diagram with ID: d1"),
        some respError]).2.2 = 0) ∧
    ∃ d a b, edge_req "d1" "a1" "b1" = edge_req d a b := by
  constructor
  · have := c3_edge_needs_captured_ids.1 (some respEmpty) (some respEmpty)
      (some (mkTextResponse "Created diagram with ID: d1")) respError []
      (by decide) (by decide)
    simpa using this
  · have hlog : (run [some respEmpty, some respEmpty,
        some (mkTextResponse "Created diagram with ID: d1"),
        some (mkTextResponse "Created class. ID: a1"),
        some (mkTextResponse "Created class. ID: b1"),
        some respOk]).2.2 =
        [delete_prev, delete_empty, create_diagram_req,
         class1_req "d1", class2_req "d1", edge_req "d1" "a1" "b1"] := rfl
    refine c3_edge_needs_captured_ids.2
      [some respEmpty, some respEmpty,
        some (mkTextResponse "Created diagram with ID: d1"),
        some (mkTextResponse "Created class. ID: a1"),
        some (mkTextResponse "Created class. ID: b1"),
        some respOk] (edge_req "d1" "a1" "b1") ?_ rfl
    rw [hlog]
    simp
